import Mathlib

/-!
Shallow embedding of the snapraid-prom-metrics exporters
(`diff_exporter.py`, `smart_exporter.py`, `status_exporter.py`).

Python strings are modelled as `List Char`; the Python string primitives
used by the parsers (`str.strip`, `str.split`, `str.split('\n')`,
`str.isdigit`, `str.rstrip('%')`, `in`, `str.startswith`, `int(...)`,
`float(...)`) are given explicit executable models below.  Python floats
are modelled by exact rationals: every numeric literal occurring in these
reports is a short decimal, on which IEEE-754 round-trip printing and the
exact rational agree for the conversions the claims quantify over.
Fallible conversions (`int`, `float` raising `ValueError`) return
`Option`; a `none` at a call site models the exception that the source
catches by dropping the current line.
-/

abbrev Str := List Char

def str (s : String) : Str := s.data

/-- Whitespace characters recognised by Python's `str.split()` / `str.strip()`
for the ASCII reports these exporters consume. -/
def isWS (c : Char) : Bool :=
  c = ' ' ∨ c = '\t' ∨ c = '\n' ∨ c = '\r' ∨ c = '\x0b' ∨ c = '\x0c'

/-- Model of Python `str.strip()`. -/
def pyStrip (s : Str) : Str :=
  ((s.dropWhile isWS).reverse.dropWhile isWS).reverse

/-- Model of Python `str.split('\n')`: split at every newline, keeping
empty pieces (`"".split('\n') == ['']`). -/
def splitNl : Str → List Str
  | [] => [[]]
  | '\n' :: r => [] :: splitNl r
  | c :: r =>
    match splitNl r with
    | t :: ts => (c :: t) :: ts
    | [] => [[c]]

/-- Worker for `pySplit`; the fuel is an upper bound on the number of
characters left, so `pySplit` below never hits the fuel-exhausted case. -/
def pySplitAux : ℕ → Str → List Str
  | _, [] => []
  | 0, _ :: _ => []
  | fuel + 1, c :: cs =>
    if isWS c then pySplitAux fuel cs
    else (c :: cs.takeWhile (fun d => !isWS d)) ::
      pySplitAux fuel (cs.dropWhile (fun d => !isWS d))

/-- Model of Python `str.split()` (no argument): split on runs of
whitespace, discarding empty tokens. -/
def pySplit (s : Str) : List Str := pySplitAux s.length s

/-- Model of the Python substring test `needle in hay`. -/
def pyIn (needle : Str) : Str → Bool
  | [] => needle.isEmpty
  | c :: t => needle.isPrefixOf (c :: t) || pyIn needle t

/-- Model of Python `str.startswith(p)`. -/
def pyStarts (p : Str) (s : Str) : Bool := p.isPrefixOf s

/-- Numeric value of a run of decimal digits. -/
def decVal (ds : Str) : ℕ := ds.foldl (fun a c => 10 * a + (c.toNat - 48)) 0

/-- Model of Python `str.isdigit()` on the ASCII tokens of these reports. -/
def pyIsDigit (s : Str) : Bool := !s.isEmpty && s.all Char.isDigit

/-- Model of Python `str.rstrip('%')`. -/
def rstripPct (s : Str) : Str :=
  (s.reverse.dropWhile (fun c => c = '%')).reverse

/-- Model of Python `int(s)` on strings: optional sign followed by a
nonempty digit run (surrounding whitespace tolerated); `none` models
`ValueError`. -/
def pyInt? (s : Str) : Option ℤ :=
  match pyStrip s with
  | '-' :: ds => if !ds.isEmpty && ds.all Char.isDigit then some (-(decVal ds : ℤ)) else none
  | '+' :: ds => if !ds.isEmpty && ds.all Char.isDigit then some (decVal ds : ℤ) else none
  | ds => if !ds.isEmpty && ds.all Char.isDigit then some (decVal ds : ℤ) else none

/-- Optional exponent suffix of a Python float literal (`e±NN`); `some 0`
for the empty remainder, `none` models `ValueError` on trailing garbage. -/
def pyExpPart : Str → Option ℤ
  | [] => some 0
  | c :: r =>
    if c = 'e' ∨ c = 'E' then
      let p : Bool × Str :=
        match r with
        | '-' :: t => (true, t)
        | '+' :: t => (false, t)
        | t => (false, t)
      let ds := p.2.takeWhile Char.isDigit
      let rest := p.2.dropWhile Char.isDigit
      if ds.isEmpty || !rest.isEmpty then none
      else some (if p.1 then -(decVal ds : ℤ) else (decVal ds : ℤ))
    else none

/-- The exact rational `±mant / 10^fracLen * 10^e`, built with `Rat.divInt`
so that it evaluates by kernel reduction. -/
def ratOfParts (neg : Bool) (mant : ℕ) (fracLen : ℕ) (e : ℤ) : ℚ :=
  let n : ℤ := if neg then -(mant : ℤ) else (mant : ℤ)
  let shift : ℤ := e - (fracLen : ℤ)
  if 0 ≤ shift then Rat.divInt (n * 10 ^ shift.toNat) 1
  else Rat.divInt n (10 ^ (-shift).toNat)

/-- Model of Python `float(s)` on the decimal literals of these reports:
optional sign, digits with an optional fractional part, optional exponent;
`none` models `ValueError`. -/
def pyFloat? (s : Str) : Option ℚ :=
  let t := pyStrip s
  let p : Bool × Str :=
    match t with
    | '-' :: r => (true, r)
    | '+' :: r => (false, r)
    | r => (false, r)
  let ip := p.2.takeWhile Char.isDigit
  let r1 := p.2.dropWhile Char.isDigit
  match r1 with
  | '.' :: r2 =>
    let fp := r2.takeWhile Char.isDigit
    let r3 := r2.dropWhile Char.isDigit
    if ip.isEmpty && fp.isEmpty then none
    else
      match pyExpPart r3 with
      | some e => some (ratOfParts p.1 (decVal (ip ++ fp)) fp.length e)
      | none => none
  | _ =>
    if ip.isEmpty then none
    else
      match pyExpPart r1 with
      | some e => some (ratOfParts p.1 (decVal ip) 0 e)
      | none => none

/-- Model of Python `int(x)` on a float: truncation toward zero. -/
def ratTrunc (q : ℚ) : ℤ := Int.tdiv q.num (q.den : ℤ)

/-- Leftmost-match search: try the pattern matcher `f` at every start
position of the text, left to right (the scanning loop of `re.search`). -/
def scanFor {α : Type} (f : Str → Option α) : Str → Option α
  | [] => none
  | c :: cs =>
    match f (c :: cs) with
    | some a => some a
    | none => scanFor f cs

/-- Smallest `k` with `den ∣ 10^k`, when one exists. -/
def findTenExp (den : ℕ) : Option ℕ :=
  (List.range (den + 1)).find? (fun k => decide (den ∣ 10 ^ k))

/-- Rendering of an integer, as Python prints an `int`. -/
def intStr (i : ℤ) : Str := str (Int.repr i)

/-- Rendering of a parsed float, as Python prints it: the shortest decimal
form for the ten-adic rationals these parsers produce (on which it agrees
with CPython's float repr); the final case cannot arise from parsed input. -/
def decRepr (q : ℚ) : Str :=
  let sgn : Str := if q.num < 0 then str "-" else []
  let n := q.num.natAbs
  match findTenExp q.den with
  | some k =>
    let m := n * (10 ^ k / q.den)
    sgn ++ str (Nat.repr (m / 10 ^ k)) ++ str "." ++
      (if k = 0 then str "0" else (str (Nat.repr (10 ^ k + m % 10 ^ k))).drop 1)
  | none => str (Int.repr q.num) ++ str "/" ++ str (Nat.repr q.den)

namespace Diff

/-- `DiffMetrics` of `diff_exporter.py` (dataclass with defaults 0/False). -/
structure DiffMetrics where
  equal : ℕ
  added : ℕ
  removed : ℕ
  updated : ℕ
  moved : ℕ
  copied : ℕ
  restored : ℕ
  has_differences : Bool
deriving DecidableEq

/-- Match attempt of the pattern `(\d+)\s+<kw>` at the start of `cs`:
a maximal nonempty digit run, then a maximal nonempty whitespace run,
then the literal keyword.  Backtracking cannot help this pattern (digits,
whitespace and the keyword head are pairwise disjoint character classes),
so greedy matching is exact. -/
def numKwAt (kw : Str) (cs : Str) : Option ℕ :=
  let ds := cs.takeWhile Char.isDigit
  let r1 := cs.dropWhile Char.isDigit
  if ds.isEmpty then none
  else
    let ws := r1.takeWhile isWS
    let r2 := r1.dropWhile isWS
    if ws.isEmpty then none
    else if kw.isPrefixOf r2 then some (decVal ds) else none

/-- Model of `re.search(r'(\d+)\s+<kw>', line)`, returning `int(group(1))`. -/
def reSearchNumKw (kw : Str) (line : Str) : Option ℕ := scanFor (numKwAt kw) line

/-- `parse_diff_line` of `diff_exporter.py`: for each of the seven
patterns independently, overwrite the field when the search matches. -/
def parse_diff_line (line : Str) (m : DiffMetrics) : DiffMetrics :=
  let l := pyStrip line
  { equal := (reSearchNumKw (str "equal") l).getD m.equal
    added := (reSearchNumKw (str "added") l).getD m.added
    removed := (reSearchNumKw (str "removed") l).getD m.removed
    updated := (reSearchNumKw (str "updated") l).getD m.updated
    moved := (reSearchNumKw (str "moved") l).getD m.moved
    copied := (reSearchNumKw (str "copied") l).getD m.copied
    restored := (reSearchNumKw (str "restored") l).getD m.restored
    has_differences := m.has_differences }

/-- `parse_snapraid_output` of `diff_exporter.py`. -/
def parse_snapraid_output (output : Str) : DiffMetrics :=
  let m0 : DiffMetrics := ⟨0, 0, 0, 0, 0, 0, 0, false⟩
  let m := (splitNl (pyStrip output)).foldl (fun m l => parse_diff_line l m) m0
  { m with has_differences := !pyIn (str "No differences") output }

/-- The seven category keywords, in source order. -/
def kwOf : Fin 7 → Str
  | 0 => str "equal"
  | 1 => str "added"
  | 2 => str "removed"
  | 3 => str "updated"
  | 4 => str "moved"
  | 5 => str "copied"
  | 6 => str "restored"

/-- Projection of the count field belonging to each category. -/
def getCount : Fin 7 → DiffMetrics → ℕ
  | 0 => DiffMetrics.equal
  | 1 => DiffMetrics.added
  | 2 => DiffMetrics.removed
  | 3 => DiffMetrics.updated
  | 4 => DiffMetrics.moved
  | 5 => DiffMetrics.copied
  | 6 => DiffMetrics.restored

end Diff

namespace Smart

/-- `DiskMetrics` of `smart_exporter.py` (one unit-health row). -/
structure DiskMetrics where
  temperature : ℤ
  power_days : ℤ
  error_count : ℤ
  failure_prob : ℚ
  size_tb : ℚ
  serial : Str
  device : Str
  name : Str
deriving DecidableEq

/-- `parse_size_tb` of `smart_exporter.py`; `none` models the `ValueError`
of `float` that the caller catches. -/
def parse_size_tb (s : Str) : Option ℚ :=
  if s.isEmpty || s = str "-" then some 0 else pyFloat? s

/-- Body of the row loop of `parse_snapraid_output` in `smart_exporter.py`
for one line: require at least 8 whitespace tokens, convert them
positionally inside the `try`, and keep the unit only when device and
serial are both resolved.  `none` covers a short line, a conversion
exception, and the sentinel filter alike: in all three cases the loop
appends nothing and continues. -/
def parseDiskLine (line : Str) : Option DiskMetrics :=
  match pySplit (pyStrip line) with
  | t0 :: t1 :: t2 :: t3 :: t4 :: t5 :: t6 :: t7 :: _ =>
    let temp : ℤ := if pyIsDigit t0 then (decVal t0 : ℤ) else 0
    let power_days : ℤ := if pyIsDigit t1 then (decVal t1 : ℤ) else 0
    let error_count : ℤ := if pyIsDigit t2 then (decVal t2 : ℤ) else 0
    match (if t3 = str "-" then some (0 : ℚ) else pyFloat? (rstripPct t3)),
        parse_size_tb t4 with
    | some failure_prob, some size_tb =>
      if t6 ≠ str "-" ∧ t5 ≠ str "-" then
        some ⟨temp, power_days, error_count, failure_prob, size_tb, t5, t6, t7⟩
      else none
    | _, _ => none
  | _ => none

/-- The row loop of `parse_snapraid_output` in `smart_exporter.py`:
skip separator lines, stop at the trailing legend, collect parsed units. -/
def disksLoop : List Str → List DiskMetrics
  | [] => []
  | line :: rest =>
    if pyStarts (str "----") line then disksLoop rest
    else if pyStarts (str "The FP column") line then []
    else
      match parseDiskLine line with
      | some d => d :: disksLoop rest
      | none => disksLoop rest

/-- Match attempt of `re.search(r"(\d+(?:\.\d+)?)%", ...)` at one start
position: maximal digits, an optional fractional part, then the literal
`%`.  Greedy matching is exact here: shrinking a digit run leaves a digit
where `.` or `%` is required. -/
def pctAt (cs : Str) : Option ℚ :=
  let d := cs.takeWhile Char.isDigit
  let r1 := cs.dropWhile Char.isDigit
  if d.isEmpty then none
  else
    match r1 with
    | '.' :: r2 =>
      let f := r2.takeWhile Char.isDigit
      let r3 := r2.dropWhile Char.isDigit
      if !f.isEmpty && r3.head? = some '%' then
        some (Rat.divInt (decVal (d ++ f)) (10 ^ f.length))
      else none
    | '%' :: _ => some (Rat.divInt (decVal d) 1)
    | _ => none

/-- `re.search(r"(\d+(?:\.\d+)?)%", line)` with `float(group(1))`. -/
def scanPct (line : Str) : Option ℚ := scanFor pctAt line

/-- The second pass of `parse_snapraid_output` in `smart_exporter.py`:
the first line containing the failure-probability phrase decides the
array-wide value (0.0 when the phrase or the percentage is absent). -/
def arrayProbOf (lines : List Str) : ℚ :=
  match lines.find? (fun l => pyIn (str "fail in the next year is") l) with
  | some l => (scanPct l).getD 0
  | none => 0

/-- `parse_snapraid_output` of `smart_exporter.py`: drop the three header
lines, then run the row loop and the prose pass over the same lines. -/
def parse_snapraid_output (output : Str) : List DiskMetrics × ℚ :=
  let lines := (splitNl (pyStrip output)).drop 3
  (disksLoop lines, arrayProbOf lines)

/-- The `device`/`serial`/`name` label set shared by the smart metrics. -/
def labels (d : DiskMetrics) : Str :=
  str "device=\"" ++ d.device ++ str "\",serial=\"" ++ d.serial ++
    str "\",name=\"" ++ d.name ++ str "\""

/-- Temperature data line of `generate_prometheus_metrics`. -/
def tempLine (d : DiskMetrics) : Str :=
  str "snapraid_disk_temperature_celsius\x7b" ++ labels d ++ str "\x7d " ++
    intStr d.temperature

/-- Power-on-days data line of `generate_prometheus_metrics`. -/
def powerLine (d : DiskMetrics) : Str :=
  str "snapraid_disk_power_on_days\x7b" ++ labels d ++ str "\x7d " ++
    intStr d.power_days

/-- Error-count data line of `generate_prometheus_metrics`. -/
def errLine (d : DiskMetrics) : Str :=
  str "snapraid_disk_error_count\x7b" ++ labels d ++ str "\x7d " ++
    intStr d.error_count

/-- Failure-probability data line of `generate_prometheus_metrics`. -/
def fpLine (d : DiskMetrics) : Str :=
  str "snapraid_disk_failure_probability_percent\x7b" ++ labels d ++ str "\x7d " ++
    decRepr d.failure_prob

/-- Disk-size data line of `generate_prometheus_metrics`:
`int(disk.size_tb * 1e12)` converts terabytes to truncated bytes. -/
def sizeLine (d : DiskMetrics) : Str :=
  str "snapraid_disk_size_bytes\x7b" ++ labels d ++ str "\x7d " ++
    intStr (ratTrunc (d.size_tb * 10 ^ 12))

/-- `generate_prometheus_metrics` of `smart_exporter.py`, as the list of
lines that the source joins with newlines. -/
def generate_prometheus_metrics (disks : List DiskMetrics) (array_failure_prob : ℚ) :
    List Str :=
  [str "# HELP snapraid_disk_temperature_celsius Current temperature of the disk",
   str "# TYPE snapraid_disk_temperature_celsius gauge"]
  ++ (disks.filter (fun d => 0 < d.temperature)).map tempLine
  ++ [str "\n# HELP snapraid_disk_power_on_days Total number of days the disk has been powered on",
      str "# TYPE snapraid_disk_power_on_days counter"]
  ++ (disks.filter (fun d => 0 < d.power_days)).map powerLine
  ++ [str "\n# HELP snapraid_disk_error_count Total number of errors detected on the disk",
      str "# TYPE snapraid_disk_error_count counter"]
  ++ disks.map errLine
  ++ [str "\n# HELP snapraid_disk_failure_probability_percent Estimated probability of disk failure in the next year",
      str "# TYPE snapraid_disk_failure_probability_percent gauge"]
  ++ disks.map fpLine
  ++ [str "\n# HELP snapraid_disk_size_bytes Size of the disk in bytes",
      str "# TYPE snapraid_disk_size_bytes gauge"]
  ++ disks.map sizeLine
  ++ [str "\n# HELP snapraid_array_failure_probability_percent Probability that at least one disk will fail in the next year",
      str "# TYPE snapraid_array_failure_probability_percent gauge",
      str "snapraid_array_failure_probability_percent " ++ decRepr array_failure_prob]

end Smart

namespace Status

/-- `DiskMetrics` of `status_exporter.py` (one capacity row). -/
structure DiskMetrics where
  name : Str
  files : ℤ
  fragmented : ℤ
  excess : ℤ
  used_gb : ℚ
  free_gb : ℚ
  use_percent : ℚ
deriving DecidableEq

/-- `ArrayMetrics` of `status_exporter.py`. -/
structure ArrayMetrics where
  total_files : ℤ
  total_fragmented : ℤ
  total_excess : ℤ
  total_used_gb : ℚ
  total_free_gb : ℚ
  total_use_percent : ℚ
deriving DecidableEq

/-- `ScrubMetrics` of `status_exporter.py`. -/
structure ScrubMetrics where
  oldest_days : ℕ
  median_days : ℕ
  newest_days : ℕ
  coverage_ratio : ℚ
deriving DecidableEq

/-- `StatusMetrics` of `status_exporter.py`. -/
structure StatusMetrics where
  sync_in_progress : Bool
  zero_subsecond_timestamps : Bool
  rehash_needed : Bool
  errors_detected : Bool
deriving DecidableEq

/-- `parse_disk_line` of `status_exporter.py`: exactly 8 whitespace
tokens, last token neither the sentinel `-` nor the header word `Name`,
and all six numeric conversions succeed; otherwise `None`. -/
def parse_disk_line (line : Str) : Option DiskMetrics :=
  let parts := pySplit (pyStrip line)
  if parts.length = 8 ∧ parts.getD 7 [] ≠ str "-" ∧ parts.getD 7 [] ≠ str "Name" then
    (pyInt? (parts.getD 0 [])).bind fun files =>
    (pyInt? (parts.getD 1 [])).bind fun frag =>
    (pyInt? (parts.getD 2 [])).bind fun exc =>
    (pyFloat? (parts.getD 4 [])).bind fun used =>
    (pyFloat? (parts.getD 5 [])).bind fun free =>
    (pyFloat? (rstripPct (parts.getD 6 []))).bind fun usep =>
    some ⟨parts.getD 7 [], files, frag, exc, used, free, usep⟩
  else none

/-- `parse_array_totals` of `status_exporter.py`: at least 8 tokens with
the same positional mapping minus the name; any failure yields the
all-zero totals. -/
def parse_array_totals (line : Str) : ArrayMetrics :=
  match pySplit (pyStrip line) with
  | t0 :: t1 :: t2 :: _t3 :: t4 :: t5 :: t6 :: _t7 :: _ =>
    match pyInt? t0, pyInt? t1, pyInt? t2, pyFloat? t4, pyFloat? t5,
        pyFloat? (rstripPct t6) with
    | some a, some b, some c, some d, some e, some f => ⟨a, b, c, d, e, f⟩
    | _, _, _, _, _, _ => ⟨0, 0, 0, 0, 0, 0⟩
  | _ => ⟨0, 0, 0, 0, 0, 0⟩

/-- Match attempt of `re.search(r"(\d+)% of the array is not scrubbed", ...)`
at one start position. -/
def notScrubbedAt (cs : Str) : Option ℕ :=
  let ds := cs.takeWhile Char.isDigit
  let r1 := cs.dropWhile Char.isDigit
  if ds.isEmpty then none
  else if pyStarts (str "% of the array is not scrubbed") r1 then some (decVal ds)
  else none

/-- The percentage search of `parse_scrub_info`. -/
def scanNotScrubbed (output : Str) : Option ℕ := scanFor notScrubbedAt output

/-- Consume a literal prefix, or fail. -/
def dropLit (p : Str) (s : Str) : Option Str :=
  if p.isPrefixOf s then some (s.drop p.length) else none

/-- Match attempt of the fixed scrub-age sentence
`The oldest block was scrubbed (\d+) days ago, the median (\d+), the
newest (\d+)` at one start position. -/
def scrubDaysAt (cs : Str) : Option (ℕ × ℕ × ℕ) :=
  match dropLit (str "The oldest block was scrubbed ") cs with
  | none => none
  | some r1 =>
    let d1 := r1.takeWhile Char.isDigit
    let r2 := r1.dropWhile Char.isDigit
    if d1.isEmpty then none
    else
      match dropLit (str " days ago, the median ") r2 with
      | none => none
      | some r3 =>
        let d2 := r3.takeWhile Char.isDigit
        let r4 := r3.dropWhile Char.isDigit
        if d2.isEmpty then none
        else
          match dropLit (str ", the newest ") r4 with
          | none => none
          | some r5 =>
            let d3 := r5.takeWhile Char.isDigit
            if d3.isEmpty then none
            else some (decVal d1, decVal d2, decVal d3)

/-- The scrub-age search of `parse_scrub_info`. -/
def scanScrubDays (output : Str) : Option (ℕ × ℕ × ℕ) := scanFor scrubDaysAt output

/-- `parse_scrub_info` of `status_exporter.py`:
`coverage = 1.0 - (pct/100 if matched else 0)`, and the three day counts
of the fixed sentence with default 0. -/
def parse_scrub_info (output : Str) : ScrubMetrics :=
  let coverage : ℚ := 1 -
    (match scanNotScrubbed output with
     | some p => Rat.divInt (p : ℤ) 100
     | none => 0)
  match scanScrubDays output with
  | some (a, b, c) => ⟨a, b, c, coverage⟩
  | none => ⟨0, 0, 0, coverage⟩

/-- `parse_status_flags` of `status_exporter.py`: each flag is the absence
of its reassuring phrase. -/
def parse_status_flags (output : Str) : StatusMetrics :=
  ⟨!pyIn (str "No sync is in progress") output,
   !pyIn (str "No file has a zero sub-second timestamp") output,
   !pyIn (str "No rehash is in progress or needed") output,
   !pyIn (str "No error detected") output⟩

/-- The table-localization loop of `parse_snapraid_output` in
`status_exporter.py`: remember `i + 2` at every line containing the
header substring, and stop at the first later line starting with `----`. -/
def findTableAux : List Str → ℕ → Option ℕ → Option ℕ × Option ℕ
  | [], _, ts => (ts, none)
  | l :: rest, i, ts =>
    if pyIn (str "Files Fragmented") l then findTableAux rest (i + 1) (some (i + 2))
    else if ts.isSome && pyStarts (str "----") l then (ts, some i)
    else findTableAux rest (i + 1) ts

/-- The tuple returned by `parse_snapraid_output` in `status_exporter.py`,
with named components. -/
structure Snapshot where
  disks : List DiskMetrics
  totals : ArrayMetrics
  scrub : ScrubMetrics
  flags : StatusMetrics
deriving DecidableEq

/-- The all-zero `ArrayMetrics` fallback. -/
def emptyTotals : ArrayMetrics := ⟨0, 0, 0, 0, 0, 0⟩

/-- `parse_snapraid_output` of `status_exporter.py`. -/
def parse_snapraid_output (output : Str) : Snapshot :=
  let lines := splitNl (pyStrip output)
  let tt := findTableAux lines 0 none
  let disks : List DiskMetrics :=
    match tt with
    | (some s, some e) => ((lines.drop s).take (e - s)).filterMap parse_disk_line
    | _ => []
  let arr : ArrayMetrics :=
    match tt with
    | (some _, some e) =>
      if e + 1 < lines.length then parse_array_totals (lines.getD (e + 1) [])
      else emptyTotals
    | _ => emptyTotals
  ⟨disks, arr, parse_scrub_info output, parse_status_flags output⟩

/-- Files data line of the status formatter. -/
def filesLine (d : DiskMetrics) : Str :=
  str "snapraid_disk_files_total\x7bname=\"" ++ d.name ++ str "\"\x7d " ++ intStr d.files

/-- Fragmented-files data line of the status formatter. -/
def fragLine (d : DiskMetrics) : Str :=
  str "snapraid_disk_fragmented_files\x7bname=\"" ++ d.name ++ str "\"\x7d " ++
    intStr d.fragmented

/-- Excess-fragments data line of the status formatter. -/
def excessLine (d : DiskMetrics) : Str :=
  str "snapraid_disk_excess_fragments\x7bname=\"" ++ d.name ++ str "\"\x7d " ++
    intStr d.excess

/-- Used-space data line: `int(disk.used_gb * 1e9)` bytes. -/
def spaceUsedLine (d : DiskMetrics) : Str :=
  str "snapraid_disk_space_bytes\x7bname=\"" ++ d.name ++ str "\",type=\"used\"\x7d " ++
    intStr (ratTrunc (d.used_gb * 10 ^ 9))

/-- Free-space data line: `int(disk.free_gb * 1e9)` bytes. -/
def spaceFreeLine (d : DiskMetrics) : Str :=
  str "snapraid_disk_space_bytes\x7bname=\"" ++ d.name ++ str "\",type=\"free\"\x7d " ++
    intStr (ratTrunc (d.free_gb * 10 ^ 9))

/-- `generate_prometheus_metrics` of `status_exporter.py`, as the list of
lines that the source joins with newlines. -/
def generate_prometheus_metrics (disks : List DiskMetrics) (array : ArrayMetrics)
    (scrub : ScrubMetrics) (status : StatusMetrics) : List Str :=
  [str "# HELP snapraid_disk_files_total Number of files on each disk",
   str "# TYPE snapraid_disk_files_total gauge"]
  ++ disks.map filesLine
  ++ [str "\n# HELP snapraid_disk_fragmented_files Number of fragmented files on each disk",
      str "# TYPE snapraid_disk_fragmented_files gauge"]
  ++ disks.map fragLine
  ++ [str "\n# HELP snapraid_disk_excess_fragments Number of excess fragments on each disk",
      str "# TYPE snapraid_disk_excess_fragments gauge"]
  ++ disks.map excessLine
  ++ [str "\n# HELP snapraid_disk_space_bytes Disk space information in bytes",
      str "# TYPE snapraid_disk_space_bytes gauge"]
  ++ disks.flatMap (fun d => [spaceUsedLine d, spaceFreeLine d])
  ++ [str "\n# HELP snapraid_array_files_total Total number of files in the array",
      str "# TYPE snapraid_array_files_total gauge",
      str "snapraid_array_files_total " ++ intStr array.total_files,
      str "\n# HELP snapraid_array_fragmented_files_total Total number of fragmented files in the array",
      str "# TYPE snapraid_array_fragmented_files_total gauge",
      str "snapraid_array_fragmented_files_total " ++ intStr array.total_fragmented,
      str "\n# HELP snapraid_array_excess_fragments_total Total number of excess fragments in the array",
      str "# TYPE snapraid_array_excess_fragments_total gauge",
      str "snapraid_array_excess_fragments_total " ++ intStr array.total_excess,
      str "\n# HELP snapraid_array_space_bytes Array space information in bytes",
      str "# TYPE snapraid_array_space_bytes gauge",
      str "snapraid_array_space_bytes\x7btype=\"used\"\x7d " ++
        intStr (ratTrunc (array.total_used_gb * 10 ^ 9)),
      str "snapraid_array_space_bytes\x7btype=\"free\"\x7d " ++
        intStr (ratTrunc (array.total_free_gb * 10 ^ 9)),
      str "\n# HELP snapraid_scrub_age_days Age of blocks in days",
      str "# TYPE snapraid_scrub_age_days gauge",
      str "snapraid_scrub_age_days\x7btype=\"oldest\"\x7d " ++ intStr (scrub.oldest_days : ℤ),
      str "snapraid_scrub_age_days\x7btype=\"median\"\x7d " ++ intStr (scrub.median_days : ℤ),
      str "snapraid_scrub_age_days\x7btype=\"newest\"\x7d " ++ intStr (scrub.newest_days : ℤ),
      str "\n# HELP snapraid_scrub_coverage_ratio Ratio of array that has been scrubbed (0.0-1.0)",
      str "# TYPE snapraid_scrub_coverage_ratio gauge",
      str "snapraid_scrub_coverage_ratio " ++ decRepr scrub.coverage_ratio,
      str "\n# HELP snapraid_status Various status indicators",
      str "# TYPE snapraid_status gauge",
      str "snapraid_status\x7btype=\"sync_in_progress\"\x7d " ++
        (if status.sync_in_progress then str "1" else str "0"),
      str "snapraid_status\x7btype=\"zero_subsecond_timestamps\"\x7d " ++
        (if status.zero_subsecond_timestamps then str "1" else str "0"),
      str "snapraid_status\x7btype=\"rehash_needed\"\x7d " ++
        (if status.rehash_needed then str "1" else str "0"),
      str "snapraid_status\x7btype=\"errors_detected\"\x7d " ++
        (if status.errors_detected then str "1" else str "0")]

end Status

/-- Family classifier for formatter lines: does the line start with the
given 15-character prefix?  The five per-disk smart metric families are
pairwise distinguished by their first 15 characters. -/
def isFam (pfx : Str) (l : Str) : Bool := decide (l.take 15 = pfx)

/-- Number of data lines of the family identified by `pfx`. -/
def famCount (pfx : Str) (lines : List Str) : ℕ := lines.countP (isFam pfx)

theorem pyIn_iff (n : Str) : ∀ h : Str, pyIn n h = true ↔ n <:+: h := by
  intro h
  induction h with
  | nil =>
    simp [pyIn, List.isEmpty_iff, List.infix_nil]
  | cons c t ih =>
    simp [pyIn, Bool.or_eq_true, ih, List.isPrefixOf_iff_prefix,
      List.infix_cons_iff]

/-- Claim C3: the diff parser sets `has_differences` to false exactly for
inputs containing the substring "No differences" (and to true otherwise),
and the empty input yields all seven counts 0 with `has_differences`
true. -/
theorem C3_has_differences (out : Str) :
    ((Diff.parse_snapraid_output out).has_differences = false ↔
      str "No differences" <:+: out)
    ∧ Diff.parse_snapraid_output (str "") = ⟨0, 0, 0, 0, 0, 0, 0, true⟩ := by
  refine ⟨?_, by decide⟩
  have h := pyIn_iff (str "No differences") out
  simp only [Diff.parse_snapraid_output, Bool.not_eq_false']
  exact h

/-- Claim C7: each of the four operational flags is true exactly when its
reassuring phrase does not occur as a substring of the report text. -/
theorem C7_flag_phrases (out : Str) :
    ((Status.parse_status_flags out).sync_in_progress = true ↔
      ¬ (str "No sync is in progress" <:+: out))
    ∧ ((Status.parse_status_flags out).zero_subsecond_timestamps = true ↔
      ¬ (str "No file has a zero sub-second timestamp" <:+: out))
    ∧ ((Status.parse_status_flags out).rehash_needed = true ↔
      ¬ (str "No rehash is in progress or needed" <:+: out))
    ∧ ((Status.parse_status_flags out).errors_detected = true ↔
      ¬ (str "No error detected" <:+: out)) := by
  simp only [Status.parse_status_flags, Bool.not_eq_true', ← pyIn_iff,
    Bool.not_eq_true]
  exact ⟨trivial, trivial, trivial, trivial⟩

/-- Claim C1: each parser maps every input to a snapshot; the empty input
is handled as "no data" (empty unit set, default-valued scalars), and a
line with an unexpected token count or an unparsable numeric token is
dropped while parsing continues with the remaining lines. -/
theorem C1_empty_input_and_line_drop :
    Diff.parse_snapraid_output (str "") = ⟨0, 0, 0, 0, 0, 0, 0, true⟩
    ∧ Smart.parse_snapraid_output (str "") = ([], 0)
    ∧ (Status.parse_snapraid_output (str "")).disks = []
    ∧ (Status.parse_snapraid_output (str "")).totals = ⟨0, 0, 0, 0, 0, 0⟩
    ∧ (Status.parse_snapraid_output (str "")).scrub = ⟨0, 0, 0, 1⟩
    ∧ (Status.parse_snapraid_output (str "")).flags = ⟨true, true, true, true⟩
    ∧ (∀ line rest, Smart.parseDiskLine line = none →
        pyStarts (str "----") line = false →
        pyStarts (str "The FP column") line = false →
        Smart.disksLoop (line :: rest) = Smart.disksLoop rest)
    ∧ (∀ line rest, Status.parse_disk_line line = none →
        (line :: rest).filterMap Status.parse_disk_line =
          rest.filterMap Status.parse_disk_line)
    ∧ Smart.parseDiskLine (str "38 15000 0 - 4.0zz S1 /dev/sda d1") = none
    ∧ Status.parse_disk_line (str "xx 2 3 4 5.0 6.0 7% d1") = none
    ∧ Status.parse_disk_line (str "1 2 3") = none := by
  refine ⟨by decide, by rfl, by rfl, by rfl, ?_, by rfl, ?_, ?_, by decide,
    by decide, by decide⟩
  · show Status.parse_scrub_info (str "") = ⟨0, 0, 0, 1⟩
    have h1 : Status.scanNotScrubbed (str "") = none := rfl
    have h2 : Status.scanScrubDays (str "") = none := rfl
    simp only [Status.parse_scrub_info, h1, h2]
    norm_num
  · intro line rest h h1 h2
    simp [Smart.disksLoop, h, h1, h2]
  · intro line rest h
    simp [List.filterMap_cons, h]

/-- Witness for C1: a malformed row (non-numeric size token) in front of a
well-formed one contributes nothing, and the loop continues. -/
theorem C1_empty_input_and_line_drop_witness :
    Smart.disksLoop [str "38 15000 0 - 4.0zz S1 /dev/sda d1",
        str "38 15000 0 - 4.0 S1 /dev/sda d1"] =
      Smart.disksLoop [str "38 15000 0 - 4.0 S1 /dev/sda d1"] := by
  exact C1_empty_input_and_line_drop.2.2.2.2.2.2.1
    (str "38 15000 0 - 4.0zz S1 /dev/sda d1") _ (by decide) (by decide) (by decide)

namespace Diff

theorem getCount_parse_diff_line (i : Fin 7) (l : Str) (m : DiffMetrics) :
    getCount i (parse_diff_line l m) =
      (reSearchNumKw (kwOf i) (pyStrip l)).getD (getCount i m) := by
  fin_cases i <;> rfl

theorem getCount_set_hd (i : Fin 7) (m : DiffMetrics) (b : Bool) :
    getCount i { m with has_differences := b } = getCount i m := by
  fin_cases i <;> rfl

theorem getCount_foldl (i : Fin 7) :
    ∀ (ls : List Str) (m : DiffMetrics),
      getCount i (ls.foldl (fun m l => parse_diff_line l m) m) =
        ((ls.filterMap (fun l => reSearchNumKw (kwOf i) (pyStrip l))).getLast?).getD
          (getCount i m) := by
  intro ls
  induction ls with
  | nil => intro m; rfl
  | cons l ls ih =>
    intro m
    rw [List.foldl_cons, ih, List.filterMap_cons]
    cases h : reSearchNumKw (kwOf i) (pyStrip l) with
    | none => rw [getCount_parse_diff_line, h]; rfl
    | some n =>
      rw [getCount_parse_diff_line, h]
      cases hx : ls.filterMap (fun l => reSearchNumKw (kwOf i) (pyStrip l)) with
      | nil => rfl
      | cons y ys =>
        have hz : ∃ z, (y :: ys).getLast? = some z := by
          cases hys : (y :: ys).getLast? with
          | none => simp at hys
          | some z => exact ⟨z, rfl⟩
        obtain ⟨z, hzz⟩ := hz
        simp [hzz]

end Diff

/-- Claim C10: when several lines match the same category's pattern, the
final count is the number from the last matching line in input order:
each category count equals the last entry of the per-line match list
(default 0), and concretely a later "7 added" overwrites "3 added". -/
theorem C10_last_match_wins :
    (∀ (output : Str) (i : Fin 7),
      Diff.getCount i (Diff.parse_snapraid_output output) =
        (((splitNl (pyStrip output)).filterMap
            (fun l => Diff.reSearchNumKw (Diff.kwOf i) (pyStrip l))).getLast?).getD 0)
    ∧ (Diff.parse_snapraid_output (str "3 added\n7 added")).added = 7 := by
  refine ⟨?_, by decide⟩
  intro output i
  simp only [Diff.parse_snapraid_output]
  rw [Diff.getCount_set_hd, Diff.getCount_foldl]
  have h0 : Diff.getCount i ⟨0, 0, 0, 0, 0, 0, 0, false⟩ = 0 := by
    fin_cases i <;> rfl
  rw [h0]

theorem isDigit_false_of_isWS (c : Char) (h : isWS c = true) : c.isDigit = false := by
  simp only [isWS, decide_eq_true_eq] at h
  rcases h with h | h | h | h | h | h <;> subst h <;> rfl

theorem takeWhile_append_all (p : Char → Bool) :
    ∀ (xs ys : Str), (∀ c ∈ xs, p c = true) →
      (∀ c, ys.head? = some c → p c = false) →
      (xs ++ ys).takeWhile p = xs ∧ (xs ++ ys).dropWhile p = ys := by
  intro xs
  induction xs with
  | nil =>
    intro ys _ hy
    cases ys with
    | nil => exact ⟨rfl, rfl⟩
    | cons c t =>
      constructor
      · simp [List.takeWhile_cons, hy c rfl]
      · simp [List.dropWhile_cons, hy c rfl]
  | cons x xs ih =>
    intro ys hx hy
    have hpx : p x = true := hx x (by simp)
    have h2 := ih ys (fun c hc => hx c (by simp [hc])) hy
    constructor
    · simp [List.takeWhile_cons, hpx, h2.1]
    · simp [List.dropWhile_cons, hpx, h2.2]

theorem scanFor_cons {α : Type} (f : Str → Option α) (c : Char) (cs : Str) :
    scanFor f (c :: cs) =
      match f (c :: cs) with
      | some a => some a
      | none => scanFor f cs := rfl

namespace Diff

theorem numKwAt_exact (k : Char) (kt : Str)
    (hk2 : isWS k = false) (ds ws w : Str)
    (hds : ds ≠ []) (hdsall : ∀ c ∈ ds, c.isDigit = true)
    (hws : ws ≠ []) (hwsall : ∀ c ∈ ws, isWS c = true) :
    numKwAt (k :: kt) (ds ++ (ws ++ ((k :: kt) ++ w))) = some (decVal ds) := by
  obtain ⟨w0, ws', rfl⟩ : ∃ w0 ws', ws = w0 :: ws' := by
    cases ws with
    | nil => exact absurd rfl hws
    | cons a b => exact ⟨a, b, rfl⟩
  have hy1 : ∀ c : Char, ((w0 :: ws') ++ ((k :: kt) ++ w)).head? = some c →
      c.isDigit = false := by
    intro c hc
    have hcw : w0 = c := by simpa using hc
    subst hcw
    exact isDigit_false_of_isWS w0 (hwsall w0 (by simp))
  have h1 := takeWhile_append_all Char.isDigit ds ((w0 :: ws') ++ ((k :: kt) ++ w))
    hdsall hy1
  have hy2 : ∀ c : Char, ((k :: kt) ++ w).head? = some c → isWS c = false := by
    intro c hc
    have hck : k = c := by simpa using hc
    subst hck
    exact hk2
  have h2 := takeWhile_append_all isWS (w0 :: ws') ((k :: kt) ++ w)
    (fun c hc => hwsall c hc) hy2
  have hpre : (k :: kt).isPrefixOf ((k :: kt) ++ w) = true :=
    List.isPrefixOf_iff_prefix.mpr ( List.prefix_append _ _)
  simp only [numKwAt, h1.1, h1.2, h2.1, h2.2, hpre]
  simp [hds]

theorem reSearch_exact (k : Char) (kt : Str)
    (hk2 : isWS k = false) :
    ∀ (u : Str) (ds ws w : Str),
      (∀ c ∈ u, c.isDigit = false) →
      ds ≠ [] → (∀ c ∈ ds, c.isDigit = true) →
      ws ≠ [] → (∀ c ∈ ws, isWS c = true) →
      reSearchNumKw (k :: kt) (u ++ (ds ++ (ws ++ ((k :: kt) ++ w)))) =
        some (decVal ds) := by
  intro u
  induction u with
  | nil =>
    intro ds ws w _ hds hdsall hws hwsall
    obtain ⟨d0, ds', rfl⟩ : ∃ d0 ds', ds = d0 :: ds' := by
      cases ds with
      | nil => exact absurd rfl hds
      | cons a b => exact ⟨a, b, rfl⟩
    have hat := numKwAt_exact k kt hk2 (d0 :: ds') (ws) w hds hdsall hws hwsall
    rw [List.nil_append]
    show scanFor (numKwAt (k :: kt)) (d0 :: (ds' ++ (ws ++ ((k :: kt) ++ w)))) = _
    rw [scanFor_cons]
    rw [show d0 :: (ds' ++ (ws ++ ((k :: kt) ++ w))) =
      (d0 :: ds') ++ (ws ++ ((k :: kt) ++ w)) from rfl, hat]
  | cons c u ih =>
    intro ds ws w hu hds hdsall hws hwsall
    have hc : c.isDigit = false := hu c (by simp)
    have hnone : numKwAt (k :: kt) (c :: (u ++ (ds ++ (ws ++ ((k :: kt) ++ w))))) =
        none := by
      simp [numKwAt, List.takeWhile_cons, hc]
    show scanFor (numKwAt (k :: kt)) (c :: (u ++ (ds ++ (ws ++ ((k :: kt) ++ w))))) = _
    rw [scanFor_cons, hnone]
    exact ih ds ws w (fun x hx => hu x (by simp [hx])) hds hdsall hws hwsall

end Diff

/-- Claim C2 (counterexample): the regex patterns carry no IGNORECASE
flag, so the keyword match is case-sensitive: the line "12 ADDED" leaves
the added count at 0, while lowercase "12 added" sets it to 12. -/
theorem C2_case_sensitive_cex :
    (Diff.parse_snapraid_output (str "12 ADDED")).added = 0 ∧
    (Diff.parse_snapraid_output (str "12 added")).added = 12 := by
  exact ⟨by decide, by decide⟩

/-- Claim C2 (amended): for each of the seven categories, a line
containing `<N> <lowercase-keyword>` — at any position in the line, with
no digit before the number — yields a match with value N; when across all
lines exactly one line matches a category, that category's count is
exactly N; the match is case-sensitive; lines matching no pattern leave
the metrics unchanged; and the three-line example input parses to
(6, 2, 0) with all other counts 0. -/
theorem C2_line_patterns :
    (∀ (i : Fin 7) (u ds ws w : Str),
      (∀ c ∈ u, c.isDigit = false) →
      ds ≠ [] → (∀ c ∈ ds, c.isDigit = true) →
      ws ≠ [] → (∀ c ∈ ws, isWS c = true) →
      Diff.reSearchNumKw (Diff.kwOf i) (u ++ (ds ++ (ws ++ (Diff.kwOf i ++ w)))) =
        some (decVal ds))
    ∧ (∀ (output : Str) (i : Fin 7) (n : ℕ),
      (splitNl (pyStrip output)).filterMap
          (fun l => Diff.reSearchNumKw (Diff.kwOf i) (pyStrip l)) = [n] →
      Diff.getCount i (Diff.parse_snapraid_output output) = n)
    ∧ (∀ (l : Str) (m : Diff.DiffMetrics),
      (∀ i : Fin 7, Diff.reSearchNumKw (Diff.kwOf i) (pyStrip l) = none) →
      Diff.parse_diff_line l m = m)
    ∧ Diff.parse_snapraid_output (str "6 equal\n2 added\n0 removed\n") =
        ⟨6, 2, 0, 0, 0, 0, 0, true⟩ := by
  refine ⟨?_, ?_, ?_, by decide⟩
  · intro i u ds ws w hu hds hdsall hws hwsall
    fin_cases i
    · exact Diff.reSearch_exact 'e' (str "qual") (by decide) u ds ws w
        hu hds hdsall hws hwsall
    · exact Diff.reSearch_exact 'a' (str "dded") (by decide) u ds ws w
        hu hds hdsall hws hwsall
    · exact Diff.reSearch_exact 'r' (str "emoved") (by decide) u ds ws w
        hu hds hdsall hws hwsall
    · exact Diff.reSearch_exact 'u' (str "pdated") (by decide) u ds ws w
        hu hds hdsall hws hwsall
    · exact Diff.reSearch_exact 'm' (str "oved") (by decide) u ds ws w
        hu hds hdsall hws hwsall
    · exact Diff.reSearch_exact 'c' (str "opied") (by decide) u ds ws w
        hu hds hdsall hws hwsall
    · exact Diff.reSearch_exact 'r' (str "estored") (by decide) u ds ws w
        hu hds hdsall hws hwsall
  · intro output i n h
    simp only [Diff.parse_snapraid_output]
    rw [Diff.getCount_set_hd, Diff.getCount_foldl, h]
    rfl
  · intro l m h
    have h0 : Diff.reSearchNumKw (str "equal") (pyStrip l) = none := h 0
    have h1 : Diff.reSearchNumKw (str "added") (pyStrip l) = none := h 1
    have h2 : Diff.reSearchNumKw (str "removed") (pyStrip l) = none := h 2
    have h3 : Diff.reSearchNumKw (str "updated") (pyStrip l) = none := h 3
    have h4 : Diff.reSearchNumKw (str "moved") (pyStrip l) = none := h 4
    have h5 : Diff.reSearchNumKw (str "copied") (pyStrip l) = none := h 5
    have h6 : Diff.reSearchNumKw (str "restored") (pyStrip l) = none := h 6
    simp only [Diff.parse_diff_line, h0, h1, h2, h3, h4, h5, h6, Option.getD_none]

/-- Witness for C2: the added-count pattern matches inside a longer line
with leading non-digit text. -/
theorem C2_line_patterns_witness :
    Diff.reSearchNumKw (Diff.kwOf 1)
      (str "x " ++ (str "12" ++ (str " " ++ (Diff.kwOf 1 ++ str " files")))) =
      some (decVal (str "12")) := by
  exact C2_line_patterns.1 1 (str "x ") (str "12") (str " ") (str " files")
    (by decide) (by decide) (by decide) (by decide) (by decide)

/-- Claim C4: a health-report row with at least 8 whitespace tokens whose
conversions succeed is mapped positionally (integers when numeric else 0;
failure probability with `%` stripped and `-` as 0.0; size with `-` as
0.0; serial, device, name) and kept exactly when device and serial are
both resolved; a row with fewer than 8 tokens contributes nothing; the
row loop applies this to every line between the separators and the
trailing legend; and scenario B parses as specified. -/
theorem C4_smart_row_mapping :
    (∀ (line t0 t1 t2 t3 t4 t5 t6 t7 : Str) (rest : List Str) (fp sz : ℚ),
      pySplit (pyStrip line) = t0 :: t1 :: t2 :: t3 :: t4 :: t5 :: t6 :: t7 :: rest →
      (if t3 = str "-" then some (0 : ℚ) else pyFloat? (rstripPct t3)) = some fp →
      Smart.parse_size_tb t4 = some sz →
      Smart.parseDiskLine line =
        (if t6 ≠ str "-" ∧ t5 ≠ str "-" then
          some ⟨(if pyIsDigit t0 then (decVal t0 : ℤ) else 0),
                (if pyIsDigit t1 then (decVal t1 : ℤ) else 0),
                (if pyIsDigit t2 then (decVal t2 : ℤ) else 0),
                fp, sz, t5, t6, t7⟩
         else none))
    ∧ (∀ line, (pySplit (pyStrip line)).length < 8 → Smart.parseDiskLine line = none)
    ∧ (∀ line rest, pyStarts (str "----") line = false →
        pyStarts (str "The FP column") line = false →
        Smart.disksLoop (line :: rest) =
          (match Smart.parseDiskLine line with
           | some d => d :: Smart.disksLoop rest
           | none => Smart.disksLoop rest))
    ∧ Smart.parseDiskLine (str "38 15000 0 - 4.0 SERIAL1 /dev/sda disk1") =
        some ⟨38, 15000, 0, 0, 4, str "SERIAL1", str "/dev/sda", str "disk1"⟩ := by
  refine ⟨?_, ?_, ?_, by decide⟩
  · intro line t0 t1 t2 t3 t4 t5 t6 t7 rest fp sz hsplit hfp hsz
    simp only [Smart.parseDiskLine, hsplit, hfp, hsz]
  · intro line h
    unfold Smart.parseDiskLine
    rcases hs : pySplit (pyStrip line) with
      _ | ⟨a0, _ | ⟨a1, _ | ⟨a2, _ | ⟨a3, _ | ⟨a4, _ | ⟨a5, _ | ⟨a6, _ | ⟨a7, r⟩⟩⟩⟩⟩⟩⟩⟩
    · rfl
    · rfl
    · rfl
    · rfl
    · rfl
    · rfl
    · rfl
    · rfl
    · rw [hs] at h
      simp only [List.length_cons] at h
      omega
  · intro line rest h1 h2
    simp only [Smart.disksLoop, h1, h2]
    simp

/-- Witness for C4: a concrete row with a percent-suffixed failure
probability and all sentinels resolved. -/
theorem C4_smart_row_mapping_witness :
    Smart.parseDiskLine (str "38 15000 0 25.5% 4.0 S1 /dev/sda d1") =
      some ⟨38, 15000, 0, Rat.divInt 51 2, 4, str "S1", str "/dev/sda", str "d1"⟩ := by
  have h := C4_smart_row_mapping.1 (str "38 15000 0 25.5% 4.0 S1 /dev/sda d1")
    (str "38") (str "15000") (str "0") (str "25.5%") (str "4.0") (str "S1")
    (str "/dev/sda") (str "d1") [] (Rat.divInt 51 2) 4
    (by decide) (by decide) (by decide)
  exact h.trans (by decide)

namespace Status

theorem findTableAux_skip :
    ∀ (pre : List Str) (rest : List Str) (i : ℕ),
      (∀ l ∈ pre, pyIn (str "Files Fragmented") l = false) →
      findTableAux (pre ++ rest) i none = findTableAux rest (i + pre.length) none := by
  intro pre
  induction pre with
  | nil => intro rest i _; simp
  | cons l pre ih =>
    intro rest i h
    have hl : pyIn (str "Files Fragmented") l = false := h l (by simp)
    rw [show (l :: pre) ++ rest = l :: (pre ++ rest) from rfl]
    rw [show findTableAux (l :: (pre ++ rest)) i none =
        findTableAux (pre ++ rest) (i + 1) none from by
      simp [findTableAux, hl]]
    rw [ih rest (i + 1) (fun x hx => h x (by simp [hx]))]
    have e : i + 1 + pre.length = i + (l :: pre).length := by simp; omega
    rw [e]

theorem findTableAux_body :
    ∀ (body : List Str) (dash : Str) (rest : List Str) (i t : ℕ),
      (∀ l ∈ body, pyIn (str "Files Fragmented") l = false ∧
        pyStarts (str "----") l = false) →
      pyIn (str "Files Fragmented") dash = false →
      pyStarts (str "----") dash = true →
      findTableAux (body ++ dash :: rest) i (some t) =
        (some t, some (i + body.length)) := by
  intro body
  induction body with
  | nil =>
    intro dash rest i t _ hd1 hd2
    simp [findTableAux, hd1, hd2]
  | cons l body ih =>
    intro dash rest i t h hd1 hd2
    have hl := h l (by simp)
    rw [show (l :: body) ++ dash :: rest = l :: (body ++ dash :: rest) from rfl]
    rw [show findTableAux (l :: (body ++ dash :: rest)) i (some t) =
        findTableAux (body ++ dash :: rest) (i + 1) (some t) from by
      simp [findTableAux, hl.1, hl.2]]
    rw [ih dash rest (i + 1) t (fun x hx => h x (by simp [hx])) hd1 hd2]
    have e : i + 1 + body.length = i + (l :: body).length := by simp; omega
    rw [e]

end Status

theorem length_eight_exists (l : List Str) (h : l.length = 8) :
    ∃ t0 t1 t2 t3 t4 t5 t6 t7, l = [t0, t1, t2, t3, t4, t5, t6, t7] := by
  obtain ⟨t0, l0, rfl⟩ := List.exists_of_length_succ l h
  simp only [List.length_cons, Nat.succ.injEq] at h
  obtain ⟨t1, l1, rfl⟩ := List.exists_of_length_succ l0 h
  simp only [List.length_cons, Nat.succ.injEq] at h
  obtain ⟨t2, l2, rfl⟩ := List.exists_of_length_succ l1 h
  simp only [List.length_cons, Nat.succ.injEq] at h
  obtain ⟨t3, l3, rfl⟩ := List.exists_of_length_succ l2 h
  simp only [List.length_cons, Nat.succ.injEq] at h
  obtain ⟨t4, l4, rfl⟩ := List.exists_of_length_succ l3 h
  simp only [List.length_cons, Nat.succ.injEq] at h
  obtain ⟨t5, l5, rfl⟩ := List.exists_of_length_succ l4 h
  simp only [List.length_cons, Nat.succ.injEq] at h
  obtain ⟨t6, l6, rfl⟩ := List.exists_of_length_succ l5 h
  simp only [List.length_cons, Nat.succ.injEq] at h
  obtain ⟨t7, l7, rfl⟩ := List.exists_of_length_succ l6 h
  simp only [List.length_cons, Nat.succ.injEq, List.length_eq_zero] at h
  subst h
  exact ⟨t0, t1, t2, t3, t4, t5, t6, t7, rfl⟩

/-- Claim C5 (counterexample): the table header test is the contiguous
substring "Files Fragmented", not "contains both words": under a header
line "Fragmented and Files" (which contains both 'Files' and
'Fragmented'), a fully valid row two lines later is NOT parsed — the unit
set stays empty although the claim requires the row to yield a unit. -/
theorem C5_header_substring_cex :
    (Status.parse_snapraid_output
      (str "Fragmented and Files\nskip\n1 2 3 4 5.0 6.0 7% d1\n----")).disks = []
    ∧ Status.parse_disk_line (str "1 2 3 4 5.0 6.0 7% d1") =
        some ⟨str "d1", 1, 2, 3, 5, 6, 7⟩
    ∧ pyIn (str "Files") (str "Fragmented and Files") = true
    ∧ pyIn (str "Fragmented") (str "Fragmented and Files") = true := by
  exact ⟨by rfl, by decide, by decide, by decide⟩

/-- Claim C5 (amended): per-unit capacity rows are parsed only from the
bounded region beginning two lines after a line containing the contiguous
substring "Files Fragmented" and ending at the next subsequent line
beginning with a run of (at least four) dashes; within that region a row
yields a unit iff it has exactly 8 whitespace tokens, its last token is
neither "-" nor "Name", and its numeric tokens parse; any other row is
excluded entirely. -/
theorem C5_capacity_region_and_rows :
    (∀ (output : Str) (pre body rest : List Str) (hdr skipLine dash : Str),
      splitNl (pyStrip output) = pre ++ hdr :: skipLine :: (body ++ dash :: rest) →
      (∀ l ∈ pre, pyIn (str "Files Fragmented") l = false) →
      pyIn (str "Files Fragmented") hdr = true →
      (∀ l ∈ skipLine :: body, pyIn (str "Files Fragmented") l = false ∧
        pyStarts (str "----") l = false) →
      pyIn (str "Files Fragmented") dash = false →
      pyStarts (str "----") dash = true →
      (Status.parse_snapraid_output output).disks =
        body.filterMap Status.parse_disk_line)
    ∧ (∀ line, (∃ d, Status.parse_disk_line line = some d) ↔
        ∃ t0 t1 t2 t3 t4 t5 t6 t7,
          pySplit (pyStrip line) = [t0, t1, t2, t3, t4, t5, t6, t7] ∧
          t7 ≠ str "-" ∧ t7 ≠ str "Name" ∧
          (pyInt? t0).isSome ∧ (pyInt? t1).isSome ∧ (pyInt? t2).isSome ∧
          (pyFloat? t4).isSome ∧ (pyFloat? t5).isSome ∧
          (pyFloat? (rstripPct t6)).isSome)
    ∧ Status.parse_disk_line (str "1 2 3 4 5.0 6.0 7% -") = none := by
  refine ⟨?_, ?_, by decide⟩
  · intro output pre body rest hdr skipLine dash hsplit hpre hhdr hbody hd1 hd2
    have htab : Status.findTableAux (splitNl (pyStrip output)) 0 none =
        (some (pre.length + 2), some (pre.length + 2 + body.length)) := by
      rw [hsplit]
      rw [Status.findTableAux_skip pre _ 0 hpre]
      rw [show Status.findTableAux (hdr :: skipLine :: (body ++ dash :: rest))
          (0 + pre.length) none =
        Status.findTableAux (skipLine :: (body ++ dash :: rest)) (0 + pre.length + 1)
          (some (0 + pre.length + 2)) from by
        simp [Status.findTableAux, hhdr]]
      rw [show skipLine :: (body ++ dash :: rest) =
        (skipLine :: body) ++ dash :: rest from rfl]
      rw [Status.findTableAux_body (skipLine :: body) dash rest _ _ hbody hd1 hd2]
      simp only [Prod.mk.injEq, Option.some.injEq, List.length_cons]
      omega
    simp only [Status.parse_snapraid_output, htab]
    have e0 : pre.length + 2 + body.length - (pre.length + 2) = body.length := by
      omega
    rw [e0, hsplit]
    have e1 : pre ++ hdr :: skipLine :: (body ++ dash :: rest) =
        (pre ++ [hdr, skipLine]) ++ (body ++ dash :: rest) := by simp
    have e2 : pre.length + 2 = (pre ++ [hdr, skipLine]).length := by simp
    rw [e1, e2, List.drop_left]
    rw [show body ++ dash :: rest = body ++ (dash :: rest) from rfl,
      List.take_left]
  · intro line
    constructor
    · rintro ⟨d, hd⟩
      unfold Status.parse_disk_line at hd
      by_cases hc : (pySplit (pyStrip line)).length = 8 ∧
          (pySplit (pyStrip line)).getD 7 [] ≠ str "-" ∧
          (pySplit (pyStrip line)).getD 7 [] ≠ str "Name"
      · obtain ⟨hlen, hne1, hne2⟩ := hc
        rw [if_pos ⟨hlen, hne1, hne2⟩] at hd
        obtain ⟨t0, t1, t2, t3, t4, t5, t6, t7, hs⟩ := length_eight_exists _ hlen
        rw [hs] at hd hne1 hne2
        simp only [List.getD_cons_succ, List.getD_cons_zero] at hd hne1 hne2
        rw [Option.bind_eq_some] at hd; obtain ⟨v0, h0, hd⟩ := hd
        rw [Option.bind_eq_some] at hd; obtain ⟨v1, h1, hd⟩ := hd
        rw [Option.bind_eq_some] at hd; obtain ⟨v2, h2, hd⟩ := hd
        rw [Option.bind_eq_some] at hd; obtain ⟨v4, h4, hd⟩ := hd
        rw [Option.bind_eq_some] at hd; obtain ⟨v5, h5, hd⟩ := hd
        rw [Option.bind_eq_some] at hd; obtain ⟨v6, h6, _⟩ := hd
        exact ⟨t0, t1, t2, t3, t4, t5, t6, t7, hs, hne1, hne2,
          by simp [h0], by simp [h1], by simp [h2], by simp [h4],
          by simp [h5], by simp [h6]⟩
      · rw [if_neg hc] at hd
        exact absurd hd (by simp)
    · rintro ⟨t0, t1, t2, t3, t4, t5, t6, t7, hs, hn1, hn2, i0, i1, i2, f4, f5, f6⟩
      obtain ⟨v0, hv0⟩ := Option.isSome_iff_exists.mp i0
      obtain ⟨v1, hv1⟩ := Option.isSome_iff_exists.mp i1
      obtain ⟨v2, hv2⟩ := Option.isSome_iff_exists.mp i2
      obtain ⟨v4, hv4⟩ := Option.isSome_iff_exists.mp f4
      obtain ⟨v5, hv5⟩ := Option.isSome_iff_exists.mp f5
      obtain ⟨v6, hv6⟩ := Option.isSome_iff_exists.mp f6
      refine ⟨⟨t7, v0, v1, v2, v4, v5, v6⟩, ?_⟩
      unfold Status.parse_disk_line
      rw [hs]
      simp only [List.getD_cons_succ, List.getD_cons_zero, List.length_cons,
        List.length_nil]
      rw [if_pos ⟨trivial, hn1, hn2⟩]
      rw [hv0, hv1, hv2, hv4, hv5, hv6]
      rfl

/-- Witness for C5: a concrete report whose bounded region holds one
valid row and one row excluded by the sentinel filter. -/
theorem C5_capacity_region_and_rows_witness :
    (Status.parse_snapraid_output
      (str "t\n   Files Fragmented  Excess  Wasted  Used    Free  Use Name\nskip\n 100 2 3 0 500.0 250.5 66% disk1\n1 2 3 4 5.0 6.0 7% -\n--------\n 101 2 3 0 505.0 256.5 67% *")).disks =
      [⟨str "disk1", 100, 2, 3, 500, Rat.divInt 501 2, 66⟩] := by
  have h := C5_capacity_region_and_rows.1
    (str "t\n   Files Fragmented  Excess  Wasted  Used    Free  Use Name\nskip\n 100 2 3 0 500.0 250.5 66% disk1\n1 2 3 4 5.0 6.0 7% -\n--------\n 101 2 3 0 505.0 256.5 67% *")
    [str "t"]
    [str " 100 2 3 0 500.0 250.5 66% disk1", str "1 2 3 4 5.0 6.0 7% -"]
    [str " 101 2 3 0 505.0 256.5 67% *"]
    (str "   Files Fragmented  Excess  Wasted  Used    Free  Use Name")
    (str "skip") (str "--------")
    (by decide) (by decide) (by decide) (by decide) (by decide) (by decide)
  exact h.trans (by decide)

namespace Status

theorem scrub_coverage (output : Str) :
    (parse_scrub_info output).coverage_ratio =
      1 - (match scanNotScrubbed output with
           | some p => Rat.divInt (p : ℤ) 100
           | none => 0) := by
  unfold parse_scrub_info
  cases scanScrubDays output with
  | none => rfl
  | some v => rcases v with ⟨a, b, c⟩; rfl

theorem scrub_days (output : Str) :
    ((parse_scrub_info output).oldest_days, (parse_scrub_info output).median_days,
      (parse_scrub_info output).newest_days) =
      (scanScrubDays output).getD (0, 0, 0) := by
  unfold parse_scrub_info
  cases scanScrubDays output with
  | none => rfl
  | some v => rcases v with ⟨a, b, c⟩; rfl

end Status

/-- Claim C6 (counterexample): the scrub-age regex requires the full
prefix "The oldest block was scrubbed", not merely the claimed sentence
pattern "scrubbed N days ago, the median M, the newest K": an input
containing the claimed pattern alone yields the defaults 0, not 7/4/2. -/
theorem C6_days_pattern_cex :
    pyIn (str "scrubbed 7 days ago, the median 4, the newest 2")
      (str "data scrubbed 7 days ago, the median 4, the newest 2") = true
    ∧ (Status.parse_scrub_info
        (str "data scrubbed 7 days ago, the median 4, the newest 2")).oldest_days = 0
    ∧ (Status.parse_scrub_info
        (str "data scrubbed 7 days ago, the median 4, the newest 2")).median_days = 0
    ∧ (Status.parse_scrub_info
        (str "data scrubbed 7 days ago, the median 4, the newest 2")).newest_days = 0 := by
  exact ⟨by decide, by rfl, by rfl, by rfl⟩

/-- Claim C6 (amended): coverageRatio is `1 − pct/100` for the leftmost
match of `<pct>% of the array is not scrubbed` (for example 25% yields
0.75) and defaults to 1.0 when the phrase is absent; the three day counts
come from the fixed sentence `The oldest block was scrubbed N days ago,
the median M, the newest K` and all default to 0 when it is absent. -/
theorem C6_scrub_parsing :
    (∀ (output : Str) (p : ℕ), Status.scanNotScrubbed output = some p →
      (Status.parse_scrub_info output).coverage_ratio = 1 - (p : ℚ) / 100)
    ∧ (∀ output, Status.scanNotScrubbed output = none →
      (Status.parse_scrub_info output).coverage_ratio = 1)
    ∧ (∀ (output : Str) (a b c : ℕ), Status.scanScrubDays output = some (a, b, c) →
      (Status.parse_scrub_info output).oldest_days = a ∧
      (Status.parse_scrub_info output).median_days = b ∧
      (Status.parse_scrub_info output).newest_days = c)
    ∧ (∀ output, Status.scanScrubDays output = none →
      (Status.parse_scrub_info output).oldest_days = 0 ∧
      (Status.parse_scrub_info output).median_days = 0 ∧
      (Status.parse_scrub_info output).newest_days = 0)
    ∧ (Status.parse_scrub_info (str "25% of the array is not scrubbed")).coverage_ratio
        = 3 / 4
    ∧ (Status.parse_scrub_info
        (str "The oldest block was scrubbed 25 days ago, the median 12, the newest 1")).oldest_days
        = 25 := by
  have hdays : ∀ (output : Str) (v : Option (ℕ × ℕ × ℕ)),
      Status.scanScrubDays output = v →
      (Status.parse_scrub_info output).oldest_days = (v.getD (0, 0, 0)).1 ∧
      (Status.parse_scrub_info output).median_days = (v.getD (0, 0, 0)).2.1 ∧
      (Status.parse_scrub_info output).newest_days = (v.getD (0, 0, 0)).2.2 := by
    intro output v hv
    have h := Status.scrub_days output
    rw [hv] at h
    exact ⟨congrArg Prod.fst h, congrArg (fun x => x.2.1) h, congrArg (fun x => x.2.2) h⟩
  refine ⟨?_, ?_, ?_, ?_, ?_, ?_⟩
  · intro output p h
    rw [Status.scrub_coverage, h]
    show (1 : ℚ) - Rat.divInt (p : ℤ) 100 = 1 - (p : ℚ) / 100
    rw [Rat.divInt_eq_div]
    push_cast
    ring
  · intro output h
    rw [Status.scrub_coverage, h]
    norm_num
  · intro output a b c h
    exact hdays output (some (a, b, c)) h
  · intro output h
    exact hdays output none h
  · rw [Status.scrub_coverage,
      show Status.scanNotScrubbed (str "25% of the array is not scrubbed") =
        some 25 from by decide]
    show (1 : ℚ) - Rat.divInt ((25 : ℕ) : ℤ) 100 = 3 / 4
    rw [Rat.divInt_eq_div]
    norm_num
  · exact (hdays _ (some (25, 12, 1)) (by decide)).1

/-- Witness for C6: the 25% input instantiates the coverage clause. -/
theorem C6_scrub_parsing_witness :
    (Status.parse_scrub_info (str "25% of the array is not scrubbed")).coverage_ratio
      = 1 - (25 : ℚ) / 100 := by
  exact C6_scrub_parsing.1 (str "25% of the array is not scrubbed") 25 (by decide)

theorem take15_append (a r : Str) (h : 15 ≤ a.length) :
    (a ++ r).take 15 = a.take 15 := List.take_append_of_le_length h

theorem isFam_lit (pfx litF r : Str) (h : 15 ≤ litF.length) :
    isFam pfx (litF ++ r) = decide (litF.take 15 = pfx) := by
  simp only [isFam, take15_append litF r h]

theorem countP_map_true {α : Type} (p : Str → Bool) (f : α → Str) (l : List α)
    (h : ∀ a, p (f a) = true) : (l.map f).countP p = l.length := by
  rw [List.countP_map]
  exact List.countP_eq_length.mpr (fun a _ => h a)

theorem countP_map_false {α : Type} (p : Str → Bool) (f : α → Str) (l : List α)
    (h : ∀ a, p (f a) = false) : (l.map f).countP p = 0 := by
  rw [List.countP_map]
  exact List.countP_eq_zero.mpr (fun a _ => by simp [Function.comp, h a])

namespace Smart

theorem isFam_tempLine (pfx : Str) (d : DiskMetrics) :
    isFam pfx (tempLine d) = decide (str "snapraid_disk_t" = pfx) := by
  unfold tempLine
  simp only [List.append_assoc]
  rw [isFam_lit pfx (str "snapraid_disk_temperature_celsius\x7b")
      (labels d ++ (str "\x7d " ++ intStr d.temperature)) (by decide),
    show (str "snapraid_disk_temperature_celsius\x7b").take 15 =
      str "snapraid_disk_t" from by decide]

theorem isFam_powerLine (pfx : Str) (d : DiskMetrics) :
    isFam pfx (powerLine d) = decide (str "snapraid_disk_p" = pfx) := by
  unfold powerLine
  simp only [List.append_assoc]
  rw [isFam_lit pfx (str "snapraid_disk_power_on_days\x7b")
      (labels d ++ (str "\x7d " ++ intStr d.power_days)) (by decide),
    show (str "snapraid_disk_power_on_days\x7b").take 15 =
      str "snapraid_disk_p" from by decide]

theorem isFam_errLine (pfx : Str) (d : DiskMetrics) :
    isFam pfx (errLine d) = decide (str "snapraid_disk_e" = pfx) := by
  unfold errLine
  simp only [List.append_assoc]
  rw [isFam_lit pfx (str "snapraid_disk_error_count\x7b")
      (labels d ++ (str "\x7d " ++ intStr d.error_count)) (by decide),
    show (str "snapraid_disk_error_count\x7b").take 15 =
      str "snapraid_disk_e" from by decide]

theorem isFam_fpLine (pfx : Str) (d : DiskMetrics) :
    isFam pfx (fpLine d) = decide (str "snapraid_disk_f" = pfx) := by
  unfold fpLine
  simp only [List.append_assoc]
  rw [isFam_lit pfx (str "snapraid_disk_failure_probability_percent\x7b")
      (labels d ++ (str "\x7d " ++ decRepr d.failure_prob)) (by decide),
    show (str "snapraid_disk_failure_probability_percent\x7b").take 15 =
      str "snapraid_disk_f" from by decide]

theorem isFam_sizeLine (pfx : Str) (d : DiskMetrics) :
    isFam pfx (sizeLine d) = decide (str "snapraid_disk_s" = pfx) := by
  unfold sizeLine
  simp only [List.append_assoc]
  rw [isFam_lit pfx (str "snapraid_disk_size_bytes\x7b")
      (labels d ++ (str "\x7d " ++ intStr (ratTrunc (d.size_tb * 10 ^ 12)))) (by decide),
    show (str "snapraid_disk_size_bytes\x7b").take 15 =
      str "snapraid_disk_s" from by decide]

theorem isFam_arrLine (pfx : Str) (p : ℚ) :
    isFam pfx (str "snapraid_array_failure_probability_percent " ++ decRepr p) =
      decide (str "snapraid_array_" = pfx) := by
  rw [isFam_lit pfx (str "snapraid_array_failure_probability_percent ")
      (decRepr p) (by decide),
    show (str "snapraid_array_failure_probability_percent ").take 15 =
      str "snapraid_array_" from by decide]

end Smart

/-- Claim C8: in the smart formatter, temperature and power-on-days data
lines are emitted only for units with strictly positive values (the
family counts equal the number of such units), while error-count and
failure-probability data lines are emitted for every included unit, even
at value 0. -/
theorem C8_positive_value_gating (disks : List Smart.DiskMetrics) (p : ℚ) :
    famCount (str "snapraid_disk_t") (Smart.generate_prometheus_metrics disks p) =
      (disks.filter (fun d => 0 < d.temperature)).length
    ∧ famCount (str "snapraid_disk_p") (Smart.generate_prometheus_metrics disks p) =
      (disks.filter (fun d => 0 < d.power_days)).length
    ∧ famCount (str "snapraid_disk_e") (Smart.generate_prometheus_metrics disks p) =
      disks.length
    ∧ famCount (str "snapraid_disk_f") (Smart.generate_prometheus_metrics disks p) =
      disks.length
    ∧ (∀ d ∈ disks,
        (0 < d.temperature →
          Smart.tempLine d ∈ Smart.generate_prometheus_metrics disks p)
        ∧ (0 < d.power_days →
          Smart.powerLine d ∈ Smart.generate_prometheus_metrics disks p)
        ∧ Smart.errLine d ∈ Smart.generate_prometheus_metrics disks p
        ∧ Smart.fpLine d ∈ Smart.generate_prometheus_metrics disks p) := by
  refine ⟨?_, ?_, ?_, ?_, ?_⟩
  · unfold famCount Smart.generate_prometheus_metrics
    simp only [List.countP_append]
    rw [countP_map_true _ _ _ (fun d => by rw [Smart.isFam_tempLine]; decide),
        countP_map_false _ _ _ (fun d => by rw [Smart.isFam_powerLine]; decide),
        countP_map_false _ _ _ (fun d => by rw [Smart.isFam_errLine]; decide),
        countP_map_false _ _ _ (fun d => by rw [Smart.isFam_fpLine]; decide),
        countP_map_false _ _ _ (fun d => by rw [Smart.isFam_sizeLine]; decide)]
    simp only [List.countP_cons, List.countP_nil, Smart.isFam_arrLine]
    simp +decide [isFam]
  · unfold famCount Smart.generate_prometheus_metrics
    simp only [List.countP_append]
    rw [countP_map_false _ _ _ (fun d => by rw [Smart.isFam_tempLine]; decide),
        countP_map_true _ _ _ (fun d => by rw [Smart.isFam_powerLine]; decide),
        countP_map_false _ _ _ (fun d => by rw [Smart.isFam_errLine]; decide),
        countP_map_false _ _ _ (fun d => by rw [Smart.isFam_fpLine]; decide),
        countP_map_false _ _ _ (fun d => by rw [Smart.isFam_sizeLine]; decide)]
    simp only [List.countP_cons, List.countP_nil, Smart.isFam_arrLine]
    simp +decide [isFam]
  · unfold famCount Smart.generate_prometheus_metrics
    simp only [List.countP_append]
    rw [countP_map_false _ _ _ (fun d => by rw [Smart.isFam_tempLine]; decide),
        countP_map_false _ _ _ (fun d => by rw [Smart.isFam_powerLine]; decide),
        countP_map_true _ _ _ (fun d => by rw [Smart.isFam_errLine]; decide),
        countP_map_false _ _ _ (fun d => by rw [Smart.isFam_fpLine]; decide),
        countP_map_false _ _ _ (fun d => by rw [Smart.isFam_sizeLine]; decide)]
    simp only [List.countP_cons, List.countP_nil, Smart.isFam_arrLine]
    simp +decide [isFam]
  · unfold famCount Smart.generate_prometheus_metrics
    simp only [List.countP_append]
    rw [countP_map_false _ _ _ (fun d => by rw [Smart.isFam_tempLine]; decide),
        countP_map_false _ _ _ (fun d => by rw [Smart.isFam_powerLine]; decide),
        countP_map_false _ _ _ (fun d => by rw [Smart.isFam_errLine]; decide),
        countP_map_true _ _ _ (fun d => by rw [Smart.isFam_fpLine]; decide),
        countP_map_false _ _ _ (fun d => by rw [Smart.isFam_sizeLine]; decide)]
    simp only [List.countP_cons, List.countP_nil, Smart.isFam_arrLine]
    simp +decide [isFam]
  · intro d hd
    refine ⟨fun ht => ?_, fun hp2 => ?_, ?_, ?_⟩
    · exact List.mem_append_left _ (List.mem_append_left _ (List.mem_append_left _
        (List.mem_append_left _ (List.mem_append_left _ (List.mem_append_left _
        (List.mem_append_left _ (List.mem_append_left _ (List.mem_append_left _
        (List.mem_append_right _ (List.mem_map_of_mem _
          (List.mem_filter.mpr ⟨hd, by simpa using ht⟩)))))))))))
    · exact List.mem_append_left _ (List.mem_append_left _ (List.mem_append_left _
        (List.mem_append_left _ (List.mem_append_left _ (List.mem_append_left _
        (List.mem_append_left _ (List.mem_append_right _ (List.mem_map_of_mem _
          (List.mem_filter.mpr ⟨hd, by simpa using hp2⟩)))))))))
    · exact List.mem_append_left _ (List.mem_append_left _ (List.mem_append_left _
        (List.mem_append_left _ (List.mem_append_left _ (List.mem_append_right _
        (List.mem_map_of_mem _ hd))))))
    · exact List.mem_append_left _ (List.mem_append_left _ (List.mem_append_left _
        (List.mem_append_right _ (List.mem_map_of_mem _ hd))))

/-- Witness for C8: for a unit with positive temperature, the temperature
line and the error-count line both appear in the generated metrics. -/
theorem C8_positive_value_gating_witness :
    Smart.tempLine ⟨40, 100, 0, 0, 2, str "S", str "D", str "N"⟩ ∈
      Smart.generate_prometheus_metrics [⟨40, 100, 0, 0, 2, str "S", str "D", str "N"⟩] 0
    ∧ Smart.errLine ⟨40, 100, 0, 0, 2, str "S", str "D", str "N"⟩ ∈
      Smart.generate_prometheus_metrics [⟨40, 100, 0, 0, 2, str "S", str "D", str "N"⟩] 0 := by
  have h := (C8_positive_value_gating
      [⟨40, 100, 0, 0, 2, str "S", str "D", str "N"⟩] 0).2.2.2.2
    ⟨40, 100, 0, 0, 2, str "S", str "D", str "N"⟩ (by simp)
  exact ⟨h.1 (by decide), h.2.2.1⟩

theorem ratTrunc_intCast (n : ℤ) : ratTrunc ((n : ℤ) : ℚ) = n := by
  unfold ratTrunc
  rw [Rat.num_intCast, Rat.den_intCast]
  simp

/-- Claim C9: emitted byte values are the parsed sizes times 10^12
(terabytes) resp. 10^9 (gigabytes), truncated to integer; in particular a
size of 2.0 TB emits exactly 2000000000000 bytes and 1.5 used GB emits
exactly 1500000000 bytes. -/
theorem C9_byte_conversions :
    (∀ (disks : List Smart.DiskMetrics) (p : ℚ) (d : Smart.DiskMetrics), d ∈ disks →
      Smart.sizeLine d ∈ Smart.generate_prometheus_metrics disks p)
    ∧ (∀ (disks : List Status.DiskMetrics) (arr : Status.ArrayMetrics)
        (scrub : Status.ScrubMetrics) (st : Status.StatusMetrics)
        (d : Status.DiskMetrics), d ∈ disks →
      Status.spaceUsedLine d ∈ Status.generate_prometheus_metrics disks arr scrub st ∧
      Status.spaceFreeLine d ∈ Status.generate_prometheus_metrics disks arr scrub st)
    ∧ ratTrunc ((2 : ℚ) * 10 ^ 12) = 2000000000000
    ∧ ratTrunc ((3 / 2 : ℚ) * 10 ^ 9) = 1500000000
    ∧ (∀ d : Smart.DiskMetrics, d.size_tb = 2 →
      Smart.sizeLine d = str "snapraid_disk_size_bytes\x7b" ++ Smart.labels d ++
        str "\x7d " ++ str "2000000000000")
    ∧ (∀ d : Status.DiskMetrics, d.used_gb = 3 / 2 →
      Status.spaceUsedLine d = str "snapraid_disk_space_bytes\x7bname=\"" ++ d.name ++
        str "\",type=\"used\"\x7d " ++ str "1500000000") := by
  have htb : ratTrunc ((2 : ℚ) * 10 ^ 12) = 2000000000000 := by
    rw [show ((2 : ℚ) * 10 ^ 12) = ((2000000000000 : ℤ) : ℚ) from by norm_num,
      ratTrunc_intCast]
  have hgb : ratTrunc ((3 / 2 : ℚ) * 10 ^ 9) = 1500000000 := by
    rw [show ((3 / 2 : ℚ) * 10 ^ 9) = ((1500000000 : ℤ) : ℚ) from by norm_num,
      ratTrunc_intCast]
  refine ⟨?_, ?_, htb, hgb, ?_, ?_⟩
  · intro disks p d hd
    exact List.mem_append_left _ (List.mem_append_right _ (List.mem_map_of_mem _ hd))
  · intro disks arr scrub st d hd
    constructor
    · exact List.mem_append_left _ (List.mem_append_right _
        (List.mem_flatMap.mpr ⟨d, hd, by simp⟩))
    · exact List.mem_append_left _ (List.mem_append_right _
        (List.mem_flatMap.mpr ⟨d, hd, by simp⟩))
  · intro d h
    unfold Smart.sizeLine
    rw [h, htb]
    rw [show intStr 2000000000000 = str "2000000000000" from by decide]
  · intro d h
    unfold Status.spaceUsedLine
    rw [h, hgb]
    rw [show intStr 1500000000 = str "1500000000" from by decide]

/-- Witness for C9: the size line of a concrete 2.0 TB unit appears in
the generated smart metrics. -/
theorem C9_byte_conversions_witness :
    Smart.sizeLine ⟨40, 100, 0, 0, 2, str "S", str "D", str "N"⟩ ∈
      Smart.generate_prometheus_metrics
        [⟨40, 100, 0, 0, 2, str "S", str "D", str "N"⟩] 0 := by
  exact C9_byte_conversions.1 [⟨40, 100, 0, 0, 2, str "S", str "D", str "N"⟩] 0
    ⟨40, 100, 0, 0, 2, str "S", str "D", str "N"⟩ (by simp)
